import Mathlib

/-!
Verification of the cc2530prog flash-programming tool (src/cc2530prog.c)
against its natural-language specification.

The C source is shallowly embedded: machine integers are `Nat` with explicit
`% 2^w` where wrap-around matters (the C `unsigned int` loop counters wrap at
`2^32`, the `uint16_t` flash pointer wraps at `2^16`, the `uint8_t` return
values wrap at `2^8`); the GPIO data line and the target's register contents
are modelled as oracles (`Nat → Bool` / `Nat → Nat`) indexed by the sample
number, since each read of the line/register is a fresh input from the
hardware.  GPIO direction changes, `send_byte` pulses and the register writes
performed through the debug protocol have no influence on the values the C
code computes, so they are not tracked; sub-commands issued through
`cc2530_do_cmd` are modelled in the states where they succeed (their failure
paths simply propagate a nonzero `ret`, which is not what the claims below
are about).
-/

/-- `#define DEFAULT_TIMEOUT 1000` (src/cc2530prog.c:40). -/
def DEFAULT_TIMEOUT : Nat := 1000

/-- Largest value of a C `unsigned int`: `0u - 1u` wraps to this. -/
def UINT32_MAX : Nat := 4294967295

/-- `#define FCTL_BUSY 0x80` (src/cc2530prog.c:66). -/
def FCTL_BUSY : Nat := 0x80

/-- `#define PROG_BLOCK_SIZE 1024` (src/cc2530prog.c:82). -/
def PROG_BLOCK_SIZE : Nat := 1024

/-- `#define DIV_ROUND_UP(n,d) (((n) + (d) - 1) / (d))` (src/cc2530prog.c:26). -/
def DIV_ROUND_UP (n d : Nat) : Nat := (n + d - 1) / d

/-- `#define LOBYTE(w) ((uint8_t)(w))` (src/cc2530prog.c:84). -/
def LOBYTE (w : Nat) : Nat := w % 256

/-- `#define HIBYTE(w) ((uint8_t)(((uint16_t)(w) >> 8) & 0xFF))` (src/cc2530prog.c:85). -/
def HIBYTE (w : Nat) : Nat := ((w % 65536) >>> 8) &&& 0xFF

/-- `#define DBGDATA 0x6260` (src/cc2530prog.c:93). -/
def DBGDATA : Nat := 0x6260

/-- `#define ADDR_BUF0 0x0000` (src/cc2530prog.c:72). -/
def ADDR_BUF0 : Nat := 0x0000

/-- `#define ADDR_BUF1 0x0400` (src/cc2530prog.c:73). -/
def ADDR_BUF1 : Nat := 0x0400

/-- `#define FWDATA 0x6273` (src/cc2530prog.c:97). -/
def FWDATA : Nat := 0x6273

/-- `const uint8_t dma_desc[32]` (src/cc2530prog.c:109-149), byte for byte,
built with the same `HIBYTE`/`LOBYTE` expressions as the source. -/
def dma_desc : List Nat :=
  [HIBYTE DBGDATA, LOBYTE DBGDATA, HIBYTE ADDR_BUF0, LOBYTE ADDR_BUF0,
   HIBYTE PROG_BLOCK_SIZE, LOBYTE PROG_BLOCK_SIZE, 31, 0x11,
   HIBYTE DBGDATA, LOBYTE DBGDATA, HIBYTE ADDR_BUF1, LOBYTE ADDR_BUF1,
   HIBYTE PROG_BLOCK_SIZE, LOBYTE PROG_BLOCK_SIZE, 31, 0x11,
   HIBYTE ADDR_BUF0, LOBYTE ADDR_BUF0, HIBYTE FWDATA, LOBYTE FWDATA,
   HIBYTE PROG_BLOCK_SIZE, LOBYTE PROG_BLOCK_SIZE, 18, 0x42,
   HIBYTE ADDR_BUF1, LOBYTE ADDR_BUF1, HIBYTE FWDATA, LOBYTE FWDATA,
   HIBYTE PROG_BLOCK_SIZE, LOBYTE PROG_BLOCK_SIZE, 18, 0x42]

/-- Big-endian encoding of a 16-bit value as two bytes, following the spec
wording "source address (big-endian 16-bit), destination address (big-endian
16-bit), transfer length (big-endian 16-bit)". -/
def be16 (w : Nat) : List Nat := [w / 256 % 256, w % 256]

/-- One 8-byte DMA descriptor as the spec describes it: big-endian source,
big-endian destination, big-endian length, trigger byte, increment/mode
byte. -/
def spec_descriptor (src dst len trig mode : Nat) : List Nat :=
  be16 src ++ be16 dst ++ be16 len ++ [trig, mode]

/-!
## Command table (`struct cc2530_cmd` / `cc2530_commands` / `find_cmd_by_name`,
src/cc2530prog.c:30-35, 177-253)
-/

/-- `struct cc2530_cmd`: name, opcode id, input byte count, output byte
count.  The C fields `in`/`out` are `uint8_t`; the table initializer
`.in = -1` stores 255.  The field `in` is spelled `inB` because `in` is a
Lean keyword. -/
structure cc2530_cmd where
  name : List Char
  id : Nat
  inB : Nat
  out : Nat
deriving Repr, DecidableEq

/-- The static command table `cc2530_commands` (src/cc2530prog.c:177-239), in
source order. -/
def cc2530_commands : List cc2530_cmd :=
  [⟨"erase".toList, 0x10, 0, 1⟩,
   ⟨"write_config".toList, 0x18, 1, 1⟩,
   ⟨"read_config".toList, 0x20, 0, 1⟩,
   ⟨"get_pc".toList, 0x28, 0, 2⟩,
   ⟨"read_status".toList, 0x30, 0, 1⟩,
   ⟨"halt".toList, 0x40, 0, 1⟩,
   ⟨"resume".toList, 0x48, 0, 1⟩,
   ⟨"debug_inst".toList, 0x50, 255, 1⟩,
   ⟨"step_inst".toList, 0x58, 0, 1⟩,
   ⟨"get_bm".toList, 0x60, 0, 1⟩,
   ⟨"get_chip_id".toList, 0x68, 0, 2⟩,
   ⟨"burst_write".toList, 0x80, 255, 1⟩]

/-- `strncmp(s, q, n) == 0` for NUL-terminated strings represented as the
lists of their characters before the NUL: the comparison stops after `n`
characters, at the first difference, or at a NUL (a NUL against a real
character differs; NUL against NUL ends both strings equal). -/
def strncmp_eq : List Char → List Char → Nat → Bool
  | _, _, 0 => true
  | [], [], _ + 1 => true
  | [], _ :: _, _ + 1 => false
  | _ :: _, [], _ + 1 => false
  | a :: s, b :: q, n + 1 => decide (a = b) && strncmp_eq s q n

/-- `find_cmd_by_name` (src/cc2530prog.c:241-253): return the first table
entry `c` with `!strncmp(c.name, name, strlen(name))`. -/
def find_cmd_by_name (name : List Char) : Option cc2530_cmd :=
  cc2530_commands.find? fun c => strncmp_eq c.name name name.length

/-- The query string of the `find_cmd_by_name("debug_inst")` lookups done by
the memory-access helpers. -/
def debug_inst_name : List Char := "debug_inst".toList

/-- `cmd->in = v;` performed through the pointer returned by
`find_cmd_by_name(q)`: updates the `in` field of the first matching entry of
the table. -/
def assign_cmd_in (tbl : List cc2530_cmd) (q : List Char) (v : Nat) :
    List cc2530_cmd :=
  match tbl with
  | [] => []
  | c :: rest =>
      if strncmp_eq c.name q q.length then { c with inB := v } :: rest
      else c :: assign_cmd_in rest q v

/-- Effect of one `cc2530_write_xdata_memory` call (src/cc2530prog.c:547-584)
on the command table: it looks up "debug_inst" and assigns `cmd->in = 3`,
then `cmd->in = 2`, then `cmd->in = 1` between the three injected
instructions (all three `cc2530_do_cmd` calls succeeding). -/
def cc2530_write_xdata_memory_table (tbl : List cc2530_cmd) :
    List cc2530_cmd :=
  assign_cmd_in
    (assign_cmd_in (assign_cmd_in tbl debug_inst_name 3) debug_inst_name 2)
    debug_inst_name 1

/-!
## Command protocol readiness poll (`cc2530_do_cmd`, src/cc2530prog.c:388-465)

The C code, with `unsigned int timeout = DEFAULT_TIMEOUT`:

```
gpio_get_value(DATA_GPIO, &val);
while (val && timeout--) {
        for (bytes = 0; bytes < 8; bytes++) { clock pulse }
        gpio_get_value(DATA_GPIO, &val);
}
if (!timeout) { fprintf(...timed out...); goto out_exit; }
for (bytes = 0; bytes < cmd->out; bytes++) read_byte(&answer[bytes]);
```

`line k` is the value sampled by the k-th `gpio_get_value` on the data line
(`true` = high = not ready).  The poll state is `(t, k)` where `t` is the
current value of `timeout` and `k` the number of loop bodies executed so far
(the current `val` is `line k`).  The C condition `val && timeout--`
post-decrements only when `val` is true; decrementing `0u` wraps to
`UINT32_MAX`.
-/

/-- Readiness poll of `cc2530_do_cmd`: returns (loop bodies executed, final
value of `timeout`). -/
def cc2530_do_cmd_poll (line : Nat → Bool) : Nat → Nat → Nat × Nat
  | 0, k => if line k then (k, UINT32_MAX) else (k, 0)
  | t + 1, k => if line k then cc2530_do_cmd_poll line t (k + 1) else (k, t + 1)

/-- Observable outcome of `cc2530_do_cmd` after the parameter bytes were sent
(all GPIO operations succeeding, so `ret` holds the `0` of the last
`gpio_set_direction`). -/
structure DoCmdOut where
  ret : Int
  bytesRead : Nat
  pollIters : Nat
  timeoutMsg : Bool
deriving Repr, DecidableEq

/-- `cc2530_do_cmd` from the readiness poll on: if `!timeout` holds after the
loop the function prints the timeout message and jumps to `out_exit` without
reading (still returning `ret = 0`); otherwise it reads `cmd->out` response
bytes. -/
def cc2530_do_cmd (line : Nat → Bool) (cmdOut : Nat) : DoCmdOut :=
  let r := cc2530_do_cmd_poll line DEFAULT_TIMEOUT 0
  if r.2 = 0 then ⟨0, 0, r.1, true⟩ else ⟨0, cmdOut, r.1, false⟩

/-!
## Flash programming (`cc2530_program_flash`, src/cc2530prog.c:732-845)

The firmware cursor `flash_ptr` is a `uint16_t`, so `fwdata[flash_ptr++]`
reads the image at the current pointer and advances it modulo `2^16`
(`get_next_flash_byte`, src/cc2530prog.c:160-163).  `fctl k` is the byte the
k-th `cc2530_read_xdata_memory(cmd, FCTL, ...)` returns; all the debug
sub-commands are modelled as succeeding.  `cc2530_burst_write`
(src/cc2530prog.c:471-514) sends `PROG_BLOCK_SIZE` bytes obtained from
`get_next_flash_byte`; its return value is discarded by the caller, so only
the cursor advance and the fetched indices are tracked.
-/

/-- The fetch loop of `cc2530_burst_write`
(`for (i = 0; i < PROG_BLOCK_SIZE; i++) send_byte(get_next_flash_byte());`):
given the count left, the current `flash_ptr` and the indices fetched so far
(most recent first), returns the new `flash_ptr` and the fetched indices. -/
def burst_write_fetch : Nat → Nat → List Nat → Nat × List Nat
  | 0, p, acc => (p, acc)
  | n + 1, p, acc => burst_write_fetch n ((p + 1) % 65536) (p :: acc)

/-- The FCTL busy-wait of `cc2530_program_flash`:

```
wait = 0;
do  {
        ret = cc2530_read_xdata_memory(cmd, FCTL, &result);
        ...
        wait = 1;
} while ((result & FCTL_BUSY) && timeout--);
```

State is `(t, k)`: current `timeout` value and next FCTL-read index.  Each
body executes one read and sets `wait = 1`; the condition post-decrements
`timeout` only while busy, wrapping `0u` to `UINT32_MAX`.  Returns (final
`timeout`, final `wait`, next read index). -/
def fctl_wait (fctl : Nat → Nat) : Nat → Nat → Nat × Nat × Nat
  | 0, k =>
      if fctl k &&& FCTL_BUSY = 0 then (0, 1, k + 1) else (UINT32_MAX, 1, k + 1)
  | t + 1, k =>
      if fctl k &&& FCTL_BUSY = 0 then (t + 1, 1, k + 1)
      else fctl_wait fctl t (k + 1)

/-- Observable outcome of `cc2530_program_flash`: the `uint8_t` return value
(`max_speed`, or 255 for the `return -1` timeout paths), the final
`flash_ptr`, the image indices fetched (most recent first) and the number of
FCTL reads performed. -/
structure ProgramFlashOut where
  ret : Nat
  ptr : Nat
  fetched : List Nat
  reads : Nat
deriving Repr, DecidableEq

/-- Block loop of `cc2530_program_flash` followed by the final busy-wait.
Arguments: blocks left, current `i`, `flash_ptr`, `timeout` (shared across
blocks; reset to `DEFAULT_TIMEOUT` only before the final wait), `max_speed`,
fetched indices so far, next FCTL-read index.  Per block: burst-write 1024
bytes, busy-wait, `if (!timeout) return -1`, then
`if (i > 0 && wait == 0) max_speed = 0` and the DMA/FCTL register writes
(no modelled effect). -/
def program_flash_loop (fctl : Nat → Nat) :
    Nat → Nat → Nat → Nat → Nat → List Nat → Nat → ProgramFlashOut
  | 0, _, p, _, ms, acc, k =>
      let r := fctl_wait fctl DEFAULT_TIMEOUT k
      if r.1 = 0 then ⟨255, p, acc, r.2.2⟩ else ⟨ms, p, acc, r.2.2⟩
  | b + 1, i, p, t, ms, acc, k =>
      let bw := burst_write_fetch PROG_BLOCK_SIZE p acc
      let r := fctl_wait fctl t k
      if r.1 = 0 then ⟨255, bw.1, bw.2, r.2.2⟩
      else
        let ms' := if 0 < i ∧ r.2.1 = 0 then 0 else ms
        program_flash_loop fctl b (i + 1) bw.1 r.1 ms' bw.2 r.2.2

/-- `cc2530_program_flash(cmd, num_buffers)` after `init_flash_ptr()`:
`max_speed` starts at 1, `timeout` at `DEFAULT_TIMEOUT`, `flash_ptr` at 0. -/
def cc2530_program_flash (fctl : Nat → Nat) (num_buffers : Nat) :
    ProgramFlashOut :=
  program_flash_loop fctl num_buffers 0 0 DEFAULT_TIMEOUT 1 [] 0

/-- `cc2530_do_program` (src/cc2530prog.c:940-1021) around the programming
step, with the earlier steps (DMA enable, clock select, erase) succeeding and
read-back disabled: `blocks = DIV_ROUND_UP(fwsize, PROG_BLOCK_SIZE)`, then
`ret = cc2530_program_flash(cmd, blocks); if (ret && verbose) printf(...);`
— the value only gates a printf — and the function returns 0. -/
def cc2530_do_program (fctl : Nat → Nat) (fwsize : Nat) : Int :=
  let pf := cc2530_program_flash fctl (DIV_ROUND_UP fwsize PROG_BLOCK_SIZE)
  let _ := pf.ret
  0

/-- `main` (src/cc2530prog.c:1187-1198): a nonzero `cc2530_do_program` result
sets `ret = -1`, otherwise `ret` keeps its value 0; `main` returns `ret`. -/
def main_exit_after_program (fctl : Nat → Nat) (fwsize : Nat) : Int :=
  if cc2530_do_program fctl fwsize ≠ 0 then -1 else 0

/-!
## Firmware cursor (`flash_ptr` / `get_next_flash_byte`,
src/cc2530prog.c:151-163) and the image size check (src/cc2530prog.c:1160)
-/

/-- Value of the `uint16_t` `flash_ptr` after `n` calls of
`get_next_flash_byte` starting from pointer `p`: each call does
`flash_ptr++`, wrapping at `2^16`. -/
def flash_ptr_iter : Nat → Nat → Nat
  | 0, p => p
  | n + 1, p => flash_ptr_iter n ((p + 1) % 65536)

/-- The byte returned by the `n`-th `get_next_flash_byte` call (0-indexed)
after `init_flash_ptr()`: `fwdata[flash_ptr++]` reads the image `fw` at the
current pointer. -/
def nth_flash_byte (fw : Nat → Nat) (n : Nat) : Nat :=
  fw (flash_ptr_iter n 0)

/-- The firmware size check in `main` (src/cc2530prog.c:1160):
`if (fwsize > flash_size)` rejects the image. -/
def fwsize_too_big (fwsize flash_size : Int) : Bool :=
  decide (fwsize > flash_size)

/-!
## Chip identification flash-size decode (`cc2530_chip_identify`,
src/cc2530prog.c:847-935)
-/

/-- The `switch` body of `cc2530_chip_identify` (src/cc2530prog.c:909-921):
cases 1-4 assign 32/64/128/256 to `*flash_size`; there is no default case,
so any other code leaves `*flash_size` at the caller's value `fs0`. -/
def flash_size_switch (code : Nat) (fs0 : Int) : Int :=
  match code with
  | 1 => 32
  | 2 => 64
  | 3 => 128
  | 4 => 256
  | _ => fs0

/-- The flash-size decode of `cc2530_chip_identify`: the switch above applied
to the scrutinee `(result[0] & 0x70) >> 4`. -/
def flash_size_decode (info0 : Nat) (fs0 : Int) : Int :=
  flash_size_switch ((info0 &&& 0x70) >>> 4) fs0

/-- Tail of `cc2530_chip_identify` on the success path (chip id recognized,
all reads succeeding): the switch above, then `*flash_size *= 1024`, and the
function returns `ret = 0`.  Result: (return value, final `*flash_size`). -/
def cc2530_chip_identify_flash (info0 : Nat) (fs0 : Int) : Int × Int :=
  (0, flash_size_decode info0 fs0 * 1024)

/-!
## Chip-identification retry loop in `main` (src/cc2530prog.c:1145-1158)

```
unsigned int retry_cnt = 3;
while (retry_cnt--) {
        ret = cc2530_chip_identify(cmd, &flash_size);
        if (ret) { fprintf(...); continue; }
        break;
}
if (!retry_cnt) { fprintf(stderr, "timeout identifying the chip\n"); goto out; }
```

`res a` tells whether the `a`-th identification attempt (0-indexed)
succeeds.  The loop state is `(rc, a)`: the current `retry_cnt` and the next
attempt number; `retry_cnt--` wraps `0u` to `UINT32_MAX`.
-/

/-- The retry loop: returns (attempts made, final `retry_cnt`, whether the
loop ended by a successful attempt). -/
def identify_retry_loop (res : Nat → Bool) : Nat → Nat → Nat × Nat × Bool
  | 0, a => (a, UINT32_MAX, false)
  | rc + 1, a =>
      if res a then (a + 1, rc, true) else identify_retry_loop res rc (a + 1)

/-- Whether `main` takes the `if (!retry_cnt)` abort branch ("timeout
identifying the chip") after the retry loop with the initial
`retry_cnt = 3`. -/
def main_identify_abort (res : Nat → Bool) : Bool :=
  decide ((identify_retry_loop res 3 0).2.1 = 0)

/-!
# Theorems
-/

/-- On a line that never goes ready, the poll exits after exactly `t` bodies
with `timeout` wrapped to `UINT32_MAX`. -/
theorem cc2530_do_cmd_poll_never_ready (line : Nat → Bool)
    (h : ∀ k, line k = true) :
    ∀ t k, cc2530_do_cmd_poll line t k = (k + t, UINT32_MAX) := by
  intro t
  induction t with
  | zero => intro k; simp [cc2530_do_cmd_poll, h k]
  | succ t ih =>
      intro k
      simp only [cc2530_do_cmd_poll, h k, if_true, ih (k + 1)]
      exact congrArg (fun m => (m, UINT32_MAX)) (by omega)

/-- Claim C1: in `cc2530_do_cmd`, a readiness poll that never sees the data
line low runs exactly the configured budget of 1000 iterations, but then —
because `timeout--` has wrapped `timeout` to `UINT32_MAX`, so `!timeout` is
false — the function does NOT report a timeout: it returns 0 (success) and
reads all `cmd->out` response bytes from the line.  This contradicts the
claimed `Timeout`-and-no-read behaviour (code bug: the `if (!timeout)` check
can never fire after a fully exhausted budget). -/
theorem c1_do_cmd_never_ready_reads_response (line : Nat → Bool) (cmdOut : Nat)
    (h : ∀ k, line k = true) :
    cc2530_do_cmd line cmdOut =
      { ret := 0, bytesRead := cmdOut, pollIters := DEFAULT_TIMEOUT,
        timeoutMsg := false } := by
  simp [cc2530_do_cmd, cc2530_do_cmd_poll_never_ready line h, UINT32_MAX,
    DEFAULT_TIMEOUT]

/-- Witness for C1 at the concrete always-high line with a 2-byte response. -/
theorem c1_do_cmd_never_ready_witness :
    (∀ k : Nat, (fun _ : Nat => true) k = true) ∧
      cc2530_do_cmd (fun _ => true) 2 =
        { ret := 0, bytesRead := 2, pollIters := DEFAULT_TIMEOUT,
          timeoutMsg := false } :=
  ⟨fun _ => rfl, c1_do_cmd_never_ready_reads_response (fun _ => true) 2 fun _ => rfl⟩

/-- The do-while body always runs at least once, so the returned `wait` flag
is always 1. -/
theorem fctl_wait_wait_eq_one (fctl : Nat → Nat) :
    ∀ t k, (fctl_wait fctl t k).2.1 = 1 := by
  intro t
  induction t with
  | zero => intro k; by_cases h : fctl k &&& FCTL_BUSY = 0 <;> simp [fctl_wait, h]
  | succ t ih =>
      intro k
      by_cases h : fctl k &&& FCTL_BUSY = 0 <;> simp [fctl_wait, h, ih]

/-- If FCTL always reads busy, the busy-wait exhausts `timeout` and exits
with it wrapped to `UINT32_MAX`, having performed `t + 1` reads. -/
theorem fctl_wait_always_busy (fctl : Nat → Nat)
    (h : ∀ k, fctl k &&& FCTL_BUSY ≠ 0) :
    ∀ t k, fctl_wait fctl t k = (UINT32_MAX, 1, k + t + 1) := by
  intro t
  induction t with
  | zero => intro k; simp [fctl_wait, h k]
  | succ t ih =>
      intro k
      simp only [fctl_wait, if_neg (h k), ih (k + 1)]
      exact congrArg (fun m => (UINT32_MAX, 1, m)) (by omega)

/-- Whatever the FCTL oracle does, `cc2530_program_flash` either takes a
`return -1` path (255) or returns the incoming `max_speed` unchanged — the
`wait == 0` test can never fire because `wait` is 1 after every do-while. -/
theorem program_flash_loop_ret (fctl : Nat → Nat) :
    ∀ b i p t ms acc k,
      (program_flash_loop fctl b i p t ms acc k).ret = 255 ∨
        (program_flash_loop fctl b i p t ms acc k).ret = ms := by
  intro b
  induction b with
  | zero =>
      intro i p t ms acc k
      by_cases h : (fctl_wait fctl DEFAULT_TIMEOUT k).1 = 0 <;>
        simp [program_flash_loop, h]
  | succ b ih =>
      intro i p t ms acc k
      simp only [program_flash_loop]
      by_cases h : (fctl_wait fctl t k).1 = 0
      · simp [h]
      · rw [if_neg h, if_neg (by simp [fctl_wait_wait_eq_one])]
        exact ih _ _ _ _ _ _

/-- With an always-busy FCTL, every busy-wait ends with `timeout` wrapped to
`UINT32_MAX`, so no `return -1` path is ever taken and the initial
`max_speed` is returned. -/
theorem program_flash_loop_always_busy (fctl : Nat → Nat)
    (h : ∀ k, fctl k &&& FCTL_BUSY ≠ 0) :
    ∀ b i p t ms acc k,
      (program_flash_loop fctl b i p t ms acc k).ret = ms := by
  intro b
  induction b with
  | zero =>
      intro i p t ms acc k
      simp [program_flash_loop, fctl_wait_always_busy fctl h, UINT32_MAX]
  | succ b ih =>
      intro i p t ms acc k
      simp only [program_flash_loop, fctl_wait_always_busy fctl h]
      rw [if_neg (by simp [UINT32_MAX]), if_neg (by simp)]
      exact ih _ _ _ _ _ _

/-- Claim C2: if the FCTL busy flag never clears, `cc2530_program_flash` does
NOT fail: every `while ((result & FCTL_BUSY) && timeout--)` exits only after
`timeout--` wraps `timeout` from 0 to `UINT32_MAX`, so the `if (!timeout)`
checks never fire and the function returns `max_speed = 1` as if programming
succeeded at full speed.  Moreover `cc2530_do_program` only feeds that return
value to a verbose printf and returns 0, so the process exit status is 0, not
non-zero.  This contradicts the claimed fatal `Timeout` (code bug). -/
theorem c2_flash_busy_never_clears_exit_zero (fctl : Nat → Nat) (fwsize : Nat)
    (h : ∀ k, fctl k &&& FCTL_BUSY ≠ 0) :
    (cc2530_program_flash fctl (DIV_ROUND_UP fwsize PROG_BLOCK_SIZE)).ret = 1 ∧
      main_exit_after_program fctl fwsize = 0 := by
  constructor
  · exact program_flash_loop_always_busy fctl h _ _ _ _ _ _ _
  · simp [main_exit_after_program, cc2530_do_program]

/-- Witness for C2: the constant FCTL oracle that always reads `0x80`. -/
theorem c2_flash_busy_witness :
    (∀ k : Nat, (fun _ : Nat => 0x80) k &&& FCTL_BUSY ≠ 0) ∧
      (cc2530_program_flash (fun _ => 0x80) (DIV_ROUND_UP 1024 PROG_BLOCK_SIZE)).ret = 1 ∧
        main_exit_after_program (fun _ => 0x80) 1024 = 0 :=
  ⟨fun _ => by norm_num [FCTL_BUSY],
    c2_flash_busy_never_clears_exit_zero (fun _ => 0x80) 1024 fun _ => by
      norm_num [FCTL_BUSY]⟩

/-- Claim C3: the "ran at full speed" indicator can never be 0.  `wait` is
assigned 1 inside the do-while body, which always executes at least once, so
`if (i > 0 && wait == 0) max_speed = 0;` is dead code (contradicting its own
comment `/* no waiting means programming finished before burst write */`):
`cc2530_program_flash` returns 255 (a `return -1` path) or 1, never 0 — in
particular not when the very first post-burst FCTL check of a block `i > 0`
already shows not-busy, as with the never-busy oracle below. -/
theorem c3_max_speed_never_zero :
    (∀ (fctl : Nat → Nat) (num_buffers : Nat),
        (cc2530_program_flash fctl num_buffers).ret ≠ 0) ∧
      (cc2530_program_flash (fun _ => 0) 2).ret = 1 := by
  constructor
  · intro fctl num_buffers
    rcases program_flash_loop_ret fctl num_buffers 0 0 DEFAULT_TIMEOUT 1 [] 0 with
      h | h <;> simp [cc2530_program_flash, h]
  · have h : ∀ t k, t ≠ 0 →
        fctl_wait (fun _ => 0) t k = (t, 1, k + 1) := by
      intro t k ht
      cases t with
      | zero => exact absurd rfl ht
      | succ t => simp [fctl_wait]
    simp only [cc2530_program_flash, program_flash_loop,
      h DEFAULT_TIMEOUT _ (by decide), h 1000 _ (by decide)]
    simp [DEFAULT_TIMEOUT]

/-- Final `flash_ptr` of a burst: the cursor advances by `n` modulo `2^16`. -/
theorem burst_write_fetch_fst :
    ∀ n p acc, p < 65536 → (burst_write_fetch n p acc).1 = (p + n) % 65536 := by
  intro n
  induction n with
  | zero => intro p acc hp; simp [burst_write_fetch, Nat.mod_eq_of_lt hp]
  | succ n ih =>
      intro p acc hp
      rw [burst_write_fetch, ih _ _ (Nat.mod_lt _ (by norm_num))]
      rw [Nat.mod_add_mod]
      exact congrArg (fun m => m % 65536) (by omega)

/-- A burst fetches exactly `n` more indices. -/
theorem burst_write_fetch_len :
    ∀ n p acc, (burst_write_fetch n p acc).2.length = n + acc.length := by
  intro n
  induction n with
  | zero => intro p acc; simp [burst_write_fetch]
  | succ n ih =>
      intro p acc
      rw [burst_write_fetch, ih]
      simp only [List.length_cons]
      omega

/-- The indices a burst fetches are exactly `(p + j) % 2^16` for `j < n`. -/
theorem burst_write_fetch_mem :
    ∀ n p acc x, p < 65536 →
      (x ∈ (burst_write_fetch n p acc).2 ↔
        x ∈ acc ∨ ∃ j, j < n ∧ x = (p + j) % 65536) := by
  intro n
  induction n with
  | zero => intro p acc x hp; simp [burst_write_fetch]
  | succ n ih =>
      intro p acc x hp
      rw [burst_write_fetch, ih _ _ x (Nat.mod_lt _ (by norm_num))]
      simp only [List.mem_cons]
      constructor
      · rintro ((rfl | hx) | ⟨j, hj, rfl⟩)
        · exact Or.inr ⟨0, by omega, by rw [Nat.add_zero, Nat.mod_eq_of_lt hp]⟩
        · exact Or.inl hx
        · refine Or.inr ⟨j + 1, by omega, ?_⟩
          rw [Nat.mod_add_mod]
          exact congrArg (fun m => m % 65536) (by omega)
      · rintro (hx | ⟨j, hj, rfl⟩)
        · exact Or.inl (Or.inr hx)
        · cases j with
          | zero =>
              refine Or.inl (Or.inl ?_)
              rw [Nat.add_zero, Nat.mod_eq_of_lt hp]
          | succ j =>
              refine Or.inr ⟨j, by omega, ?_⟩
              rw [Nat.mod_add_mod]
              exact congrArg (fun m => m % 65536) (by omega)

/-- On a never-busy FCTL the do-while exits on its first check without
decrementing a nonzero `timeout`. -/
theorem fctl_wait_never_busy (t k : Nat) (ht : t ≠ 0) :
    fctl_wait (fun _ => 0) t k = (t, 1, k + 1) := by
  cases t with
  | zero => exact absurd rfl ht
  | succ t => simp [fctl_wait]

/-- Characterization of a nominal (never-busy) programming run: `max_speed`
is returned unchanged, each of the `b` blocks fetches exactly 1024 image
indices, and the fetched indices are `(p + j) % 2^16` for `j < b * 1024`. -/
theorem program_flash_loop_never_busy :
    ∀ b i p t ms acc k, p < 65536 → t ≠ 0 →
      (program_flash_loop (fun _ => 0) b i p t ms acc k).ret = ms ∧
        (program_flash_loop (fun _ => 0) b i p t ms acc k).fetched.length
          = b * 1024 + acc.length ∧
        ∀ x, x ∈ (program_flash_loop (fun _ => 0) b i p t ms acc k).fetched ↔
          x ∈ acc ∨ ∃ j, j < b * 1024 ∧ x = (p + j) % 65536 := by
  intro b
  induction b with
  | zero =>
      intro i p t ms acc k hp ht
      rw [program_flash_loop, fctl_wait_never_busy DEFAULT_TIMEOUT k (by decide)]
      simp [DEFAULT_TIMEOUT]
  | succ b ih =>
      intro i p t ms acc k hp ht
      simp only [program_flash_loop, fctl_wait_never_busy t k ht]
      rw [if_neg ht, if_neg (by simp)]
      have hp' : (burst_write_fetch PROG_BLOCK_SIZE p acc).1 < 65536 := by
        rw [burst_write_fetch_fst _ _ _ hp]
        exact Nat.mod_lt _ (by norm_num)
      obtain ⟨hr, hl, hm⟩ :=
        ih (i + 1) (burst_write_fetch PROG_BLOCK_SIZE p acc).1 t ms
          (burst_write_fetch PROG_BLOCK_SIZE p acc).2 (k + 1) hp' ht
      refine ⟨hr, ?_, ?_⟩
      · rw [hl, burst_write_fetch_len]
        simp only [PROG_BLOCK_SIZE]
        omega
      · intro x
        rw [hm x, burst_write_fetch_mem _ _ _ x hp,
          burst_write_fetch_fst _ _ _ hp]
        simp only [PROG_BLOCK_SIZE, Nat.mod_add_mod]
        constructor
        · rintro ((hx | ⟨j, hj, rfl⟩) | ⟨j, hj, rfl⟩)
          · exact Or.inl hx
          · exact Or.inr ⟨j, by omega, rfl⟩
          · refine Or.inr ⟨1024 + j, by omega, ?_⟩
            exact congrArg (fun m => m % 65536) (by omega)
        · rintro (hx | ⟨j, hj, rfl⟩)
          · exact Or.inl (Or.inl hx)
          · by_cases hj2 : j < 1024
            · exact Or.inl (Or.inr ⟨j, hj2, rfl⟩)
            · refine Or.inr ⟨j - 1024, by omega, ?_⟩
              exact congrArg (fun m => m % 65536) (by omega)

/-- `cc2530_program_flash` on a never-busy controller: `b` blocks fetch
exactly `b * 1024` indices, namely `j % 2^16` for `j < b * 1024`. -/
theorem cc2530_program_flash_never_busy (b : Nat) :
    (cc2530_program_flash (fun _ => 0) b).fetched.length = b * 1024 ∧
      ∀ x, x ∈ (cc2530_program_flash (fun _ => 0) b).fetched ↔
        ∃ j, j < b * 1024 ∧ x = j % 65536 := by
  obtain ⟨_, hl, hm⟩ :=
    program_flash_loop_never_busy b 0 0 DEFAULT_TIMEOUT 1 [] 0 (by norm_num)
      (by decide)
  constructor
  · simpa using hl
  · intro x
    simpa using hm x

/-- Claim C10 (amended): for an image of length `0 < l`, a nominal run
burst-writes exactly `DIV_ROUND_UP(l, 1024)` blocks of exactly 1024 bytes
each; and — restricted to `l ≤ 65536`, where the 16-bit cursor does not wrap
past the image — every fetched index is within the image iff `l` is a
multiple of 1024.  (For `l > 65536` the cursor wrap keeps every fetched index
below 65536 < l, so the original iff fails; see the counterexample.) -/
theorem c10_blocks_amended (l : Nat) (h1 : 0 < l) :
    (cc2530_program_flash (fun _ => 0)
        (DIV_ROUND_UP l PROG_BLOCK_SIZE)).fetched.length
      = DIV_ROUND_UP l PROG_BLOCK_SIZE * 1024 ∧
      (l ≤ 65536 →
        ((∀ x ∈ (cc2530_program_flash (fun _ => 0)
            (DIV_ROUND_UP l PROG_BLOCK_SIZE)).fetched, x < l) ↔
          l % 1024 = 0)) := by
  obtain ⟨hl, hm⟩ :=
    cc2530_program_flash_never_busy (DIV_ROUND_UP l PROG_BLOCK_SIZE)
  refine ⟨hl, fun hle => ?_⟩
  constructor
  · intro hall
    by_contra hmod
    have h65 : l < 65536 := by omega
    have hlt : l < DIV_ROUND_UP l PROG_BLOCK_SIZE * 1024 := by
      simp only [DIV_ROUND_UP, PROG_BLOCK_SIZE]
      omega
    have hmem : l ∈ (cc2530_program_flash (fun _ => 0)
        (DIV_ROUND_UP l PROG_BLOCK_SIZE)).fetched :=
      (hm l).mpr ⟨l, hlt, (Nat.mod_eq_of_lt h65).symm⟩
    exact absurd (hall l hmem) (lt_irrefl l)
  · intro hmod x hx
    obtain ⟨j, hj, rfl⟩ := (hm x).mp hx
    have htot : DIV_ROUND_UP l PROG_BLOCK_SIZE * 1024 = l := by
      simp only [DIV_ROUND_UP, PROG_BLOCK_SIZE]
      omega
    rw [Nat.mod_eq_of_lt (by omega)]
    omega

/-- Witness for the amended C10 at `l = 1024`. -/
theorem c10_blocks_amended_witness :
    0 < 1024 ∧
      ((cc2530_program_flash (fun _ => 0)
          (DIV_ROUND_UP 1024 PROG_BLOCK_SIZE)).fetched.length
        = DIV_ROUND_UP 1024 PROG_BLOCK_SIZE * 1024 ∧
        (1024 ≤ 65536 →
          ((∀ x ∈ (cc2530_program_flash (fun _ => 0)
              (DIV_ROUND_UP 1024 PROG_BLOCK_SIZE)).fetched, x < 1024) ↔
            1024 % 1024 = 0))) :=
  ⟨by decide, c10_blocks_amended 1024 (by decide)⟩

/-- Claim C10 counterexample: `l = 65537` (admitted by the size check when
the chip reports 128 KiB, code 3) is not a multiple of 1024, yet every index
fetched by the run is within the image, because the 16-bit `flash_ptr` wraps
below 65536 < l — refuting the claimed "if and only if" at this input. -/
theorem c10_iff_fails_above_wrap :
    (∀ x ∈ (cc2530_program_flash (fun _ => 0)
        (DIV_ROUND_UP 65537 PROG_BLOCK_SIZE)).fetched, x < 65537) ∧
      65537 % 1024 ≠ 0 ∧
      fwsize_too_big 65537 (cc2530_chip_identify_flash 0x30 0).2 = false := by
  refine ⟨?_, by decide, by decide⟩
  intro x hx
  obtain ⟨j, hj, rfl⟩ :=
    ((cc2530_program_flash_never_busy (DIV_ROUND_UP 65537 PROG_BLOCK_SIZE)).2 x).mp hx
  have : j % 65536 < 65536 := Nat.mod_lt _ (by norm_num)
  omega

/-- The `uint16_t` cursor after `n` post-increments from `p < 2^16` is
`(p + n) % 2^16`. -/
theorem flash_ptr_iter_eq :
    ∀ n p, p < 65536 → flash_ptr_iter n p = (p + n) % 65536 := by
  intro n
  induction n with
  | zero => intro p hp; simp [flash_ptr_iter, Nat.mod_eq_of_lt hp]
  | succ n ih =>
      intro p hp
      rw [flash_ptr_iter, ih _ (Nat.mod_lt _ (by norm_num))]
      rw [Nat.mod_add_mod]
      exact congrArg (fun m => m % 65536) (by omega)

/-- Claim C9: the `n`-th byte fetched since the last cursor reset is the
image byte at index `n % 2^16`; for `n ≥ 65536` that index differs from `n`
(the stream restarts from the beginning of the image); and the size check in
`main` admits an image of 262144 bytes (256 KiB) when the chip-info flash
code is 4, so such offsets are reachable. -/
theorem c9_flash_ptr_wraps (fw : Nat → Nat) (n : Nat) (h : 65536 ≤ n) :
    nth_flash_byte fw n = fw (n % 65536) ∧ n % 65536 ≠ n ∧
      fwsize_too_big 262144 (cc2530_chip_identify_flash 0x40 0).2 = false := by
  refine ⟨?_, ?_, by decide⟩
  · unfold nth_flash_byte
    rw [flash_ptr_iter_eq n 0 (by norm_num)]
    rw [Nat.zero_add]
  · have hlt : n % 65536 < 65536 := Nat.mod_lt _ (by norm_num)
    omega

/-- Witness for C9 at `n = 70000` on the identity image. -/
theorem c9_flash_ptr_wraps_witness :
    65536 ≤ 70000 ∧
      (nth_flash_byte (fun i => i) 70000 = (fun i : Nat => i) (70000 % 65536) ∧
        70000 % 65536 ≠ 70000 ∧
        fwsize_too_big 262144 (cc2530_chip_identify_flash 0x40 0).2 = false) :=
  ⟨by decide, c9_flash_ptr_wraps (fun i => i) 70000 (by decide)⟩

/-- An unrecognized flash-size code leaves the switch output at the incoming
value. -/
theorem flash_size_switch_other (c : Nat) (fs0 : Int)
    (h1 : c ≠ 1) (h2 : c ≠ 2) (h3 : c ≠ 3) (h4 : c ≠ 4) :
    flash_size_switch c fs0 = fs0 := by
  unfold flash_size_switch
  rcases c with _ | _ | _ | _ | _ | m
  · rfl
  · exact absurd rfl h1
  · exact absurd rfl h2
  · exact absurd rfl h3
  · exact absurd rfl h4
  · rfl

/-- Claim C4 counterexample: flash-size code 5 (chip-info byte `0x50`) with
the caller's initial `flash_size = 0` (as `main` initializes it) is silently
reported as a flash size of zero: `cc2530_chip_identify` still returns 0
(success) and `*flash_size` ends as `0 * 1024 = 0`, with no error for the
unsupported code. -/
theorem c4_unknown_code_silently_zero :
    cc2530_chip_identify_flash 0x50 0 = (0, 0) := by decide

/-- Claim C4 (amended): codes 1-4 map to 32/64/128/256 KiB
(`*flash_size *= 1024` afterwards); any other code leaves `*flash_size` at
the caller's incoming value (then multiplied by 1024), and identification
still succeeds — with `main`'s zero initialization the unsupported code is
silently reported as a flash size of zero. -/
theorem c4_flash_size_decode_amended (info0 : Nat) (fs0 : Int) :
    ((info0 &&& 0x70) >>> 4 = 1 →
      cc2530_chip_identify_flash info0 fs0 = (0, 32 * 1024)) ∧
    ((info0 &&& 0x70) >>> 4 = 2 →
      cc2530_chip_identify_flash info0 fs0 = (0, 64 * 1024)) ∧
    ((info0 &&& 0x70) >>> 4 = 3 →
      cc2530_chip_identify_flash info0 fs0 = (0, 128 * 1024)) ∧
    ((info0 &&& 0x70) >>> 4 = 4 →
      cc2530_chip_identify_flash info0 fs0 = (0, 256 * 1024)) ∧
    ((info0 &&& 0x70) >>> 4 ≠ 1 → (info0 &&& 0x70) >>> 4 ≠ 2 →
      (info0 &&& 0x70) >>> 4 ≠ 3 → (info0 &&& 0x70) >>> 4 ≠ 4 →
      cc2530_chip_identify_flash info0 fs0 = (0, fs0 * 1024)) := by
  unfold cc2530_chip_identify_flash flash_size_decode
  refine ⟨fun h => ?_, fun h => ?_, fun h => ?_, fun h => ?_,
    fun h1 h2 h3 h4 => ?_⟩
  · rw [h]; rfl
  · rw [h]; rfl
  · rw [h]; rfl
  · rw [h]; rfl
  · rw [flash_size_switch_other _ fs0 h1 h2 h3 h4]

/-- Witness for the amended C4: code 1 maps to 32 KiB; code 5 with incoming
value 7 keeps it. -/
theorem c4_flash_size_decode_witness :
    ((0x10 &&& 0x70) >>> 4 = 1 ∧
      cc2530_chip_identify_flash 0x10 0 = (0, 32 * 1024)) ∧
      cc2530_chip_identify_flash 0x50 7 = (0, 7 * 1024) :=
  ⟨⟨by decide, (c4_flash_size_decode_amended 0x10 0).1 (by decide)⟩,
    (c4_flash_size_decode_amended 0x50 7).2.2.2.2 (by decide) (by decide)
      (by decide) (by decide)⟩

/-- Claim C5: the emitted 32-byte DMA descriptor table is exactly the four
documented 8-byte descriptors — debug-port to buffer 0, debug-port to
buffer 1, buffer 0 to flash, buffer 1 to flash — each a big-endian 16-bit
source, big-endian 16-bit destination, big-endian 16-bit length 1024, the
trigger byte (31 = DBG_BW for the debug channels, 18 = FLASH for the flash
channels) and the increment/mode byte (0x11 increment destination, 0x42
increment source). -/
theorem c5_dma_desc_layout :
    dma_desc =
      spec_descriptor DBGDATA ADDR_BUF0 1024 31 0x11 ++
        spec_descriptor DBGDATA ADDR_BUF1 1024 31 0x11 ++
        spec_descriptor ADDR_BUF0 FWDATA 1024 18 0x42 ++
        spec_descriptor ADDR_BUF1 FWDATA 1024 18 0x42 ∧
      dma_desc.length = 32 := by decide

/-- Claim C6: the identification retry loop in `main` is inverted at both
edges.  With `res a` the success of attempt `a`: when the first two attempts
fail and the third succeeds, the loop breaks with `retry_cnt = 0`, so
`if (!retry_cnt)` aborts the run ("timeout identifying the chip") despite
the success; when all three attempts fail, `retry_cnt--` wraps to
`UINT32_MAX`, the abort branch is NOT taken, and the run proceeds.  This
contradicts the claimed "success on any of the 3 attempts proceeds, only
total failure aborts" (code bug). -/
theorem c6_identify_retry_inverted :
    identify_retry_loop (fun a => decide (a = 2)) 3 0 = (3, 0, true) ∧
      main_identify_abort (fun a => decide (a = 2)) = true ∧
      identify_retry_loop (fun _ => false) 3 0 = (3, UINT32_MAX, false) ∧
      main_identify_abort (fun _ => false) = false := by decide

/-- The C prefix matching: `strncmp(s, q, strlen(q)) == 0` holds exactly
when `q` is a prefix of `s` (names contain no NUL). -/
theorem strncmp_eq_isPrefixOf :
    ∀ (q s : List Char), strncmp_eq s q q.length = q.isPrefixOf s := by
  intro q
  induction q with
  | nil => intro s; cases s <;> rfl
  | cons b q ih =>
      intro s
      cases s with
      | nil => rfl
      | cons a s =>
          simp only [List.length_cons, strncmp_eq, List.isPrefixOf, ih s]
          by_cases hab : a = b
          · subst hab
            simp
          · have hba : ¬b = a := fun hh => hab hh.symm
            simp [hab, hba]

/-- Claim C7: every stored command name looks itself up to its own entry,
and for any query `q` the lookup returns exactly the first entry in table
order whose name has `q` as a prefix (the `strncmp` compares only the first
`strlen(q)` characters); in particular a query that is a prefix of some
stored name always finds an entry. -/
theorem c7_find_cmd_lookup (q : List Char)
    (h : ∃ c ∈ cc2530_commands, q.isPrefixOf c.name = true) :
    (∀ c ∈ cc2530_commands, find_cmd_by_name c.name = some c) ∧
      find_cmd_by_name q =
        cc2530_commands.find? (fun c => q.isPrefixOf c.name) ∧
      (find_cmd_by_name q).isSome = true := by
  have hpred : (fun c : cc2530_cmd => strncmp_eq c.name q q.length) =
      (fun c => q.isPrefixOf c.name) :=
    funext fun c => strncmp_eq_isPrefixOf q c.name
  refine ⟨by decide, ?_, ?_⟩
  · unfold find_cmd_by_name
    rw [hpred]
  · unfold find_cmd_by_name
    rw [hpred]
    obtain ⟨c, hc, hpc⟩ := h
    rw [List.find?_isSome]
    exact ⟨c, hc, hpc⟩

/-- Witness for C7 with the strict-prefix query "get" (first match in table
order is "get_pc"). -/
theorem c7_find_cmd_lookup_witness :
    (∃ c ∈ cc2530_commands, (String.toList "get").isPrefixOf c.name = true) ∧
      ((∀ c ∈ cc2530_commands, find_cmd_by_name c.name = some c) ∧
        find_cmd_by_name (String.toList "get") =
          cc2530_commands.find?
            (fun c => (String.toList "get").isPrefixOf c.name) ∧
        (find_cmd_by_name (String.toList "get")).isSome = true) :=
  ⟨by decide, c7_find_cmd_lookup (String.toList "get") (by decide)⟩

/-- Claim C8 counterexample: the static table is NOT read-only.  After a
single `cc2530_write_xdata_memory` call the `in` field of the "debug_inst"
entry is 1 instead of its initializer value 255 (`.in = -1`), so the table
differs from its startup state. -/
theorem c8_table_in_field_mutated :
    ((cc2530_write_xdata_memory_table cc2530_commands).find?
        (fun c => decide (c.name = debug_inst_name))).map (fun c => c.inB)
      = some 1 ∧
      (cc2530_commands.find?
          (fun c => decide (c.name = debug_inst_name))).map (fun c => c.inB)
        = some 255 ∧
      cc2530_write_xdata_memory_table cc2530_commands ≠ cc2530_commands := by
  decide

/-- Claim C8 (amended): the memory-access helpers mutate exactly the `in`
field of the variable-length "debug_inst" entry (leaving it at 1 after a
`cc2530_write_xdata_memory` call); the name, opcode and output-count fields
of every entry, and all fields of every other entry, are never changed. -/
theorem c8_table_mutation_amended :
    (cc2530_write_xdata_memory_table cc2530_commands).map
        (fun c => (c.name, c.id, c.out)) =
      cc2530_commands.map (fun c => (c.name, c.id, c.out)) ∧
      (cc2530_write_xdata_memory_table cc2530_commands).map (fun c => c.inB) =
        cc2530_commands.map
          (fun c => if c.name = debug_inst_name then 1 else c.inB) := by
  decide
